import Mathlib

/-!
Verification of the intercepting-proxy core: a shallow embedding of
src/cert.rs, src/proxy/mod.rs, src/proxy/request.rs, src/proxy/response.rs,
src/proxy/body.rs and src/proxy/core.rs, together with theorems about the
embedded operations.

Machine integers: the Rust code uses u32 counters updated with
fetch_add(1, Ordering Relaxed); these wrap modulo 2^32, which we model as
Nat arithmetic with an explicit modulus U32.

Channels: the tokio broadcast and oneshot channels are modeled by making the
traces of emitted events explicit, and by passing the value a oneshot
callback resolves to (or none, for a dropped sender) as an explicit
argument.
-/

deriving instance DecidableEq for Except

namespace Proxy

/-- Wrap modulus of the u32 counters (2 to the power 32). -/
def U32 : Nat := 4294967296

/-- Byte strings (hyper Bytes) as lists of byte values. -/
abbrev Bytes := List Nat

/-- URI modeled by its scheme, authority and path components
(hyper http Uri). The authority is modeled as the host string. -/
structure Uri where
  scheme : Option String
  authority : Option String
  path : String
deriving DecidableEq, Repr

/-- Host component of a URI (hyper Uri host()), modeled as the authority. -/
def Uri.host (u : Uri) : Option String := u.authority

/-- Request head, from src/proxy/request.rs lines 6-12: method, URI, version
and the header map. Headers are a list of name-value pairs, preserving
duplicate-name order. -/
structure RequestHead where
  method : String
  uri : Uri
  version : Nat
  headers : List (String × String)
deriving DecidableEq, Repr

/-- Response head, from src/proxy/response.rs lines 6-11: status, version
and the header map. -/
structure ResponseHead where
  status : Nat
  version : Nat
  headers : List (String × String)
deriving DecidableEq, Repr

/-- Event kinds, from src/proxy/mod.rs lines 16-30 (enum ProxyState). -/
inductive ProxyState where
  | RequestHead (head : RequestHead)
  | RequestChunk (chunk : Bytes)
  | RequestDone
  | ResponseHead (head : ResponseHead)
  | ResponseChunk (chunk : Bytes)
  | ResponseDone
  | UpgradeOpen
  | UpgradeTx (id : Nat) (chunk : Bytes)
  | UpgradeRx (id : Nat) (chunk : Bytes)
  | UpgradeClose
  | Error (msg : String)
  | Msg (msg : String)
deriving DecidableEq, Repr

/-- Event on the bus, from src/proxy/mod.rs lines 32-37 (struct ProxyEvent):
a request id, an event kind, and an optional single-shot reply channel.
The callback field records whether the event carries a reply sender
(Some sender in the Rust struct); the value an editor sends back on that
channel is threaded separately, as an Option ProxyState argument of the
functions that await it. -/
structure ProxyEvent where
  id : Nat
  event : ProxyState
  callback : Bool
deriving DecidableEq, Repr

/-- Constructor for a RequestHead event, from src/proxy/mod.rs lines 40-50
(ProxyEvent req_head): the event carries the head and a oneshot sender. -/
def ProxyEvent.reqHeadEvent (id : Nat) (head : RequestHead) : ProxyEvent :=
  { id := id, event := ProxyState.RequestHead head, callback := true }

/-- Constructor for a ResponseHead event, from src/proxy/mod.rs lines 72-82
(ProxyEvent resp_head). -/
def ProxyEvent.respHeadEvent (id : Nat) (head : ResponseHead) : ProxyEvent :=
  { id := id, event := ProxyState.ResponseHead head, callback := true }

/-- Head selection after the RequestHead callback resolves, from
src/proxy/request.rs lines 31-41: a reply of kind RequestHead replaces the
original, any other kind is logged and the original is kept, and a dropped
sender (Err on the oneshot receiver, modeled as none) keeps the original. -/
def chooseReqHead (original : RequestHead) (completion : Option ProxyState) :
    RequestHead :=
  match completion with
  | some (ProxyState.RequestHead head) => head
  | some _ => original
  | none => original

/-- Head selection after the ResponseHead callback resolves, from
src/proxy/response.rs lines 29-36. -/
def chooseRespHead (original : ResponseHead) (completion : Option ProxyState) :
    ResponseHead :=
  match completion with
  | some (ProxyState.ResponseHead head) => head
  | some _ => original
  | none => original

/-- Request envelope, from src/proxy/request.rs lines 14-18. The streaming
body half is modeled separately by InnerStreamBody below. -/
structure Request where
  head : RequestHead
deriving DecidableEq, Repr

/-- Response envelope, from src/proxy/response.rs lines 13-17. -/
structure Response where
  head : ResponseHead
deriving DecidableEq, Repr

/-- Envelope construction, from src/proxy/request.rs lines 21-48
(Request from_request): emits the RequestHead event built by req_head
(carrying the original head and a callback sender) and picks the head for
the envelope from the callback completion. Returns the emitted event
together with the envelope. -/
def Request.from_request (head : RequestHead) (id : Nat)
    (completion : Option ProxyState) : ProxyEvent × Request :=
  (ProxyEvent.reqHeadEvent id head, { head := chooseReqHead head completion })

/-- Envelope construction, from src/proxy/response.rs lines 20-43
(Response from_response). -/
def Response.from_response (head : ResponseHead) (id : Nat)
    (completion : Option ProxyState) : ProxyEvent × Response :=
  (ProxyEvent.respHeadEvent id head, { head := chooseRespHead head completion })

/-- Forwardable request, the result of the Into implementation in
src/proxy/request.rs lines 51-65. -/
structure HyperRequest where
  method : String
  uri : Uri
  version : Nat
  headers : List (String × String)
deriving DecidableEq, Repr

/-- Forwardable response, the result of the Into implementation in
src/proxy/response.rs lines 46-58. The body is carried opaquely. -/
structure HyperResponse where
  status : Nat
  version : Nat
  headers : List (String × String)
  body : String
deriving DecidableEq, Repr

/-- Header rebuild by the hyper builder fold in src/proxy/request.rs
lines 57-60: each header pair is appended in iteration order. -/
def buildHeaders (hs : List (String × String)) : List (String × String) :=
  hs.foldl (fun acc nv => acc ++ [nv]) []

/-- Into hyper Request for the request envelope, src/proxy/request.rs
lines 51-65: method, URI and version are taken from the (possibly edited)
head and the headers are folded back in order. -/
def Request.intoHyper (r : Request) : HyperRequest :=
  { method := r.head.method
    uri := r.head.uri
    version := r.head.version
    headers := buildHeaders r.head.headers }

/-- Into hyper Response for the response envelope, src/proxy/response.rs
lines 46-58; the body stream is passed through unchanged. -/
def Response.intoHyper (r : Response) (body : String) : HyperResponse :=
  { status := r.head.status
    version := r.head.version
    headers := buildHeaders r.head.headers
    body := body }

/-! Streaming body, from src/proxy/body.rs. A StreamBody wraps an
InnerStreamBody; the wrapped hyper Body is modeled as the list of items it
will yield (Ok chunk or Err message). The events this revision sends carry a
per-chunk counter value and no callback sender: body.rs builds its events
with the id and event fields only, so the callback field of every emitted
event is false, and poll_next never awaits any reply. -/

/-- Stream direction tag, from src/proxy/body.rs lines 9-13
(enum StreamFork). -/
inductive StreamFork where
  | RequestStream
  | ResponseStream
deriving DecidableEq, Repr

/-- Chunk-level event kinds as constructed by body.rs (RequestChunk and
RequestDone with an id field, lines 20-28 and 47-55, and their Response
counterparts): this revision gives body events their own chunk counter. -/
inductive ChunkState where
  | RequestChunk (id : Nat) (chunk : Bytes)
  | RequestDone (id : Nat)
  | ResponseChunk (id : Nat) (chunk : Bytes)
  | ResponseDone (id : Nat)
deriving DecidableEq, Repr

/-- Event emitted by the streaming body: request id, chunk-level kind, and
whether a callback sender is attached (body.rs attaches none). -/
structure ChunkEvent where
  id : Nat
  event : ChunkState
  callback : Bool
deriving DecidableEq, Repr

/-- Chunk event emission, from src/proxy/body.rs lines 16-42
(StreamFork send_event): the chunk counter value passed in is the value
fetch_add returned (the pre-increment value), and the event carries the
chunk bytes with no callback sender. -/
def StreamFork.send_event (fork : StreamFork) (id reqId : Nat) (chunk : Bytes) :
    ChunkEvent :=
  match fork with
  | StreamFork.RequestStream =>
    { id := id, event := ChunkState.RequestChunk reqId chunk, callback := false }
  | StreamFork.ResponseStream =>
    { id := id, event := ChunkState.ResponseChunk reqId chunk, callback := false }

/-- Done event emission, from src/proxy/body.rs lines 44-68
(StreamFork close). -/
def StreamFork.close (fork : StreamFork) (id reqId : Nat) : ChunkEvent :=
  match fork with
  | StreamFork.RequestStream =>
    { id := id, event := ChunkState.RequestDone reqId, callback := false }
  | StreamFork.ResponseStream =>
    { id := id, event := ChunkState.ResponseDone reqId, callback := false }

/-- Streaming body state, from src/proxy/body.rs lines 71-77
(struct InnerStreamBody): the wrapped stream (as the list of items it has
yet to yield), the request id, the AtomicU32 chunk counter, and the
direction tag. -/
structure InnerStreamBody where
  inner : List (Except String Bytes)
  id : Nat
  request_id : Nat
  stream : StreamFork
deriving DecidableEq, Repr

/-- One poll of the body stream, from src/proxy/body.rs lines 117-142
(the Stream implementation of InnerStreamBody, poll_next): end-of-stream
emits the Done event and yields none; an Ok chunk is sent as a chunk event
(a clone of the same bytes) and yielded downstream unchanged; an Err is
yielded downstream verbatim with no event. Returns the emitted event if
any, the yielded item if any, and the successor state. -/
def InnerStreamBody.poll_next (b : InnerStreamBody) :
    Option ChunkEvent × Option (Except String Bytes) × InnerStreamBody :=
  match b.inner with
  | [] =>
    (some (b.stream.close b.id b.request_id), none,
      { b with request_id := (b.request_id + 1) % U32 })
  | Except.ok chunk :: rest =>
    (some (b.stream.send_event b.id b.request_id chunk), some (Except.ok chunk),
      { b with inner := rest, request_id := (b.request_id + 1) % U32 })
  | Except.error e :: rest =>
    (none, some (Except.error e), { b with inner := rest })

/-- Consumer loop pulling n polls from the body (hyper polls the wrapped
stream until it yields none and then stops). Returns the events emitted on
the bus and the items the downstream consumer received, in order. -/
def runPolls : Nat → InnerStreamBody → List ChunkEvent × List (Except String Bytes)
  | 0, _ => ([], [])
  | Nat.succ n, b =>
    match b.poll_next with
    | (ev, none, _) => (ev.toList, [])
    | (ev, some item, b2) =>
      (ev.toList ++ (runPolls n b2).1, item :: (runPolls n b2).2)

/-- Events emitted when the body wrapper is dropped: src/proxy/body.rs
defines no Drop implementation for StreamBody or InnerStreamBody, so
dropping the wrapper runs only the default destructor and emits nothing. -/
def InnerStreamBody.dropEvents (_b : InnerStreamBody) : List ChunkEvent := []

/-- Whether a chunk-level event is a Done event. -/
def ChunkState.isDone : ChunkState → Bool
  | ChunkState.RequestDone _ => true
  | ChunkState.ResponseDone _ => true
  | _ => false

/-- Number of Done events in a trace. -/
def countDone : List ChunkEvent → Nat
  | [] => 0
  | ev :: rest => (if ev.event.isDone then 1 else 0) + countDone rest

/-- Number of events in a trace that carry a callback sender. -/
def countCallbacks : List ChunkEvent → Nat
  | [] => 0
  | ev :: rest => (if ev.callback then 1 else 0) + countCallbacks rest

/-- Concatenation of the chunk payloads carried by the chunk events of a
trace, in emission order. -/
def chunkPayloads : List ChunkEvent → Bytes
  | [] => []
  | ev :: rest =>
    match ev.event with
    | ChunkState.RequestChunk _ c => c ++ chunkPayloads rest
    | ChunkState.ResponseChunk _ c => c ++ chunkPayloads rest
    | _ => chunkPayloads rest

/-- Concatenation of the chunk bytes a downstream consumer received from a
list of yielded items (Err items deliver no bytes). -/
def receivedBytes : List (Except String Bytes) → Bytes
  | [] => []
  | Except.ok c :: rest => c ++ receivedBytes rest
  | Except.error _ :: rest => receivedBytes rest

/-! Proxy core, from src/proxy/core.rs. -/

/-- Server configuration, from src/proxy/core.rs lines 26-31
(struct ProxyConfig). The listen address is modeled as the four address
bytes and the port. -/
structure ProxyConfig where
  pubkey_path : String
  privkey_path : String
  listen : List Nat × Nat
  starting_id : Nat
deriving DecidableEq, Repr

/-- Default configuration, from src/proxy/core.rs lines 33-42: paths
data/cert and data/key, listen address 0.0.0.0 port 1337, and starting id 1
(the source comment reserves id 0 for events not associated with
requests). -/
def ProxyConfig.default : ProxyConfig :=
  { pubkey_path := "data/cert"
    privkey_path := "data/key"
    listen := ([0, 0, 0, 0], 1337)
    starting_id := 1 }

/-- Value of the shared id counter after n requests have been admitted,
starting from the configured starting id: the counter is an AtomicU32
bumped with fetch_add(1) at src/proxy/core.rs line 152, so it wraps
modulo U32. -/
def counterAfter (s : Nat) : Nat → Nat
  | 0 => s % U32
  | Nat.succ n => (counterAfter s n + 1) % U32

/-- Request id assigned to the n-th admitted request (0-based), i.e. the
value fetch_add(1) returns on that request. -/
def idOfRequest (s n : Nat) : Nat := counterAfter s n

/-- URI rewrite before dispatch, from src/proxy/core.rs lines 153-158: the
authority is replaced by the resolved host and the scheme is forced to
https exactly when it is absent. -/
def rewriteUri (host : String) (u : Uri) : Uri :=
  { u with
    authority := some host
    scheme := match u.scheme with
      | none => some "https"
      | some s => some s }

/-- Host resolution, from src/proxy/core.rs lines 136 and 151: the host of
the request URI, or else the fallback host of the handler. -/
def resolveHost (req : HyperRequest) (fallback : Option String) : Option String :=
  match req.uri.host with
  | some h => some h
  | none => fallback

/-- Head of the admitted request after the URI rewrite, as passed to
Request from_request at src/proxy/core.rs line 160. -/
def admittedHead (host : String) (req : HyperRequest) : RequestHead :=
  { method := req.method
    uri := rewriteUri host req.uri
    version := req.version
    headers := req.headers }

/-- Request actually dispatched to the upstream client at
src/proxy/core.rs line 161: the envelope built by from_request (with the
callback completion applied) converted back into a hyper request. -/
def forwardedRequest (host : String) (id : Nat) (req : HyperRequest)
    (reqReply : Option ProxyState) : HyperRequest :=
  ((Request.from_request (admittedHead host req) id reqReply).2).intoHyper

/-- Result of one call of the connection handler: the events emitted on the
bus, the value returned to the serving layer (Ok response or Err string),
and the id counter afterwards. -/
structure CallResult where
  events : List ProxyEvent
  result : Except String HyperResponse
  counter : Nat
deriving DecidableEq, Repr

/-- Response returned on the CONNECT arm (Response default()): an empty 200. -/
def defaultHyperResponse : HyperResponse :=
  { status := 200, version := 11, headers := [], body := "" }

/-- Connection handler, from src/proxy/core.rs lines 134-249
(the Service implementation of ProxyCore, call). CONNECT spawns the TLS
upgrade task and immediately answers with the default response. Any other
method resolves a host (URI host, else the fallback host) and fails with
the No-SNI error when neither exists; otherwise it allocates an id from the
shared counter, rewrites the URI, builds the request envelope (emitting the
RequestHead event), dispatches the forwarded request upstream, and either
builds the response envelope (emitting the ResponseHead event) or, on
upstream failure, emits an Error event with the failure message and answers
status 500 with body Internal Proxy Error. The values the two head
callbacks resolve to (none for a dropped sender) and the upstream client
are passed as arguments. -/
def ProxyCore.call (fallback : Option String) (counter : Nat)
    (req : HyperRequest) (reqReply respReply : Option ProxyState)
    (upstream : HyperRequest → Except String HyperResponse) : CallResult :=
  if req.method = "CONNECT" then
    { events := [], result := Except.ok defaultHyperResponse, counter := counter }
  else
    match resolveHost req fallback with
    | none =>
      { events := [], result := Except.error "No SNI or backup host",
        counter := counter }
    | some host =>
      let id := counter % U32
      let counter2 := (counter + 1) % U32
      let fromReq := Request.from_request (admittedHead host req) id reqReply
      match upstream fromReq.2.intoHyper with
      | Except.error e =>
        { events := [fromReq.1,
            { id := id, event := ProxyState.Error e, callback := false }]
          result := Except.ok
            { status := 500, version := 11, headers := [],
              body := "Internal Proxy Error" }
          counter := counter2 }
      | Except.ok resp =>
        let respHead : ResponseHead :=
          { status := resp.status, version := resp.version, headers := resp.headers }
        let fromResp := Response.from_response respHead id respReply
        { events := [fromReq.1, fromResp.1]
          result := Except.ok (fromResp.2.intoHyper resp.body)
          counter := counter2 }

/-! Post-upgrade duplex shuttle, from src/proxy/core.rs lines 176-240. -/

/-- Shuttle state: the pending reads of the client side (req) and of the
upstream side (resp), and the chunk counter. Each list entry is the result
of one read into the 512-byte buffer: some bytes for Ok(read) with
read greater than zero, none for an I/O error; an exhausted list is a read
of 0 bytes (the peer closed). -/
structure ShuttleState where
  reqReads : List (Option Bytes)
  respReads : List (Option Bytes)
  chunk_id : Nat
deriving DecidableEq, Repr

/-- Duplex shuttle loop, from src/proxy/core.rs lines 182-233: each
iteration the select macro commits to one side (modeled by the schedule
list of booleans, true for the client side); a successful read emits an
UpgradeTx or UpgradeRx event tagged with the post-increment chunk counter
and the bytes (and writes them to the other side); a read of 0 bytes or an
error breaks out of the loop, after which nothing further is emitted (the
code prints and closes; it sends no UpgradeClose, and no UpgradeOpen was
sent before the loop). Returns the trace of emitted events. -/
def shuttleRun (i : Nat) : List Bool → ShuttleState → List ProxyEvent
  | [], _ => []
  | pick :: sched, st =>
    if pick then
      match st.reqReads with
      | [] => []
      | none :: _ => []
      | some bytes :: more =>
        { id := i, event := ProxyState.UpgradeTx st.chunk_id bytes,
          callback := false }
          :: shuttleRun i sched
            { st with reqReads := more, chunk_id := (st.chunk_id + 1) % U32 }
    else
      match st.respReads with
      | [] => []
      | none :: _ => []
      | some bytes :: more =>
        { id := i, event := ProxyState.UpgradeRx st.chunk_id bytes,
          callback := false }
          :: shuttleRun i sched
            { st with respReads := more, chunk_id := (st.chunk_id + 1) % U32 }

/-- Whether an event kind is UpgradeOpen. -/
def ProxyState.isUpgradeOpen : ProxyState → Bool
  | ProxyState.UpgradeOpen => true
  | _ => false

/-- Whether an event kind is UpgradeClose. -/
def ProxyState.isUpgradeClose : ProxyState → Bool
  | ProxyState.UpgradeClose => true
  | _ => false

/-- Whether an event kind is UpgradeTx or UpgradeRx. -/
def ProxyState.isUpgradeTxRx : ProxyState → Bool
  | ProxyState.UpgradeTx _ _ => true
  | ProxyState.UpgradeRx _ _ => true
  | _ => false

/-- Number of events of a trace whose kind satisfies p. -/
def countEvents (p : ProxyState → Bool) : List ProxyEvent → Nat
  | [] => 0
  | ev :: rest => (if p ev.event then 1 else 0) + countEvents p rest

/-! Certificate authority, from src/cert.rs. OpenSSL objects are modeled
opaquely: a private key by its DER bytes, parsed certificates and keys by
wrapper records, and the fallible OpenSSL steps (file opens, parses, key
generation, serial randomness) by Option-valued inputs. -/

/-- Parsed X.509 certificate (an opaque handle on its source bytes). -/
structure LoadedCert where
  raw : List Nat
deriving DecidableEq, Repr

/-- Parsed private key (an opaque handle on its DER bytes). -/
structure LoadedKey where
  raw : List Nat
deriving DecidableEq, Repr

/-- Root store pair, from src/cert.rs lines 24-27 (struct CertStore): the
root private key and the root certificate. -/
structure CertStorePair where
  privkey : LoadedKey
  pubkey : LoadedCert
deriving DecidableEq, Repr

/-- Outcome of CertStore try_load, src/cert.rs lines 103-114. The function
returns Option of the pair, but the two parse steps call unwrap, so a file
that opens and then fails to parse panics instead of returning None. -/
inductive LoadResult where
  | fileMissing
  | panicked
  | loaded (pair : CertStorePair)
deriving DecidableEq, Repr

/-- Root load, from src/cert.rs lines 103-114 (CertStore try_load): opening
either file with File open is fallible and propagates None (the ok()?
calls); the PEM parse of the certificate and the DER parse of the key are
unwrapped, so a parse failure panics. File contents are passed as
Option byte lists (none when the open fails) and the two parsers as
functions returning none on parse failure. -/
def CertStore.try_load (certFile keyFile : Option (List Nat))
    (pemParse : List Nat → Option LoadedCert)
    (derParse : List Nat → Option LoadedKey) : LoadResult :=
  match certFile with
  | none => LoadResult.fileMissing
  | some certBytes =>
    match keyFile with
    | none => LoadResult.fileMissing
    | some keyBytes =>
      match pemParse certBytes with
      | none => LoadResult.panicked
      | some cert =>
        match derParse keyBytes with
        | none => LoadResult.panicked
        | some key => LoadResult.loaded { privkey := key, pubkey := cert }

/-- Outcome of CertStore try_load_or_create followed by the expect in
load_or_create, src/cert.rs lines 30-38: loaded from disk, freshly created
(try_new generated a 2048-bit RSA self-signed root and wrote the
certificate as PEM and the key as DER), a panic propagated from a corrupt
parse inside try_load, or a fatal failure because generation itself
failed (try_new returned None and the expect fires). -/
inductive StoreOutcome where
  | loaded (pair : CertStorePair)
  | created (pair : CertStorePair)
  | panicked
  | createFailed
deriving DecidableEq, Repr

/-- Root load-or-create, from src/cert.rs lines 35-38
(CertStore try_load_or_create): try try_load first and fall back to
try_new only when try_load returned None (both files readable and parsed
returns the stored pair; a missing file falls through to generation; a
corrupt file panics inside try_load). The result of the fresh generation
(none when an OpenSSL step or a file write fails, src/cert.rs lines
40-101) is passed as the gen argument. -/
def CertStore.try_load_or_create (certFile keyFile : Option (List Nat))
    (pemParse : List Nat → Option LoadedCert)
    (derParse : List Nat → Option LoadedKey)
    (gen : Option CertStorePair) : StoreOutcome :=
  match CertStore.try_load certFile keyFile pemParse derParse with
  | LoadResult.loaded pair => StoreOutcome.loaded pair
  | LoadResult.panicked => StoreOutcome.panicked
  | LoadResult.fileMissing =>
    match gen with
    | some pair => StoreOutcome.created pair
    | none => StoreOutcome.createFailed

/-- Distinguished name, as a list of entry pairs in append order. -/
structure X509Name where
  entries : List (String × String)
deriving DecidableEq, Repr

/-- Root identity as the resolver sees it, from src/cert.rs lines 135-136:
the root private key, the subject name of the root certificate, and the DER
encoding of the root certificate. -/
structure RootIdentity where
  privkey : LoadedKey
  subject : X509Name
  rootDer : List Nat
deriving DecidableEq, Repr

/-- Signature digest choices used by the code. -/
inductive Digest where
  | sha256
  | sha512
deriving DecidableEq, Repr

/-- Leaf certificate minted by the resolver, from src/cert.rs lines
143-186: version, random serial, subject (built with a single CN entry),
issuer (the subject of the root certificate), critical serverAuth EKU,
critical SAN URI entry, the key whose public part set_pubkey installed,
the key sign was called with, and the digest. -/
structure LeafCert where
  version : Nat
  serial : Nat
  subject : X509Name
  issuer : X509Name
  ekuCriticalServerAuth : Bool
  sanCritical : Bool
  sanUri : String
  pubkeySetFrom : LoadedKey
  signedWith : LoadedKey
  signDigest : Digest
deriving DecidableEq, Repr

/-- Certified key handed to rustls, from src/cert.rs lines 188-196: the
chain is the freshly minted leaf followed by the root DER, and the signing
key is an RSA signing key built from the DER of the root private key. -/
structure CertifiedKey where
  leaf : LeafCert
  chainRootDer : List Nat
  signingKey : LoadedKey
deriving DecidableEq, Repr

/-- Certificate resolution, from src/cert.rs lines 130-200
(the ResolvesServerCert implementation of CertResolver, resolve): the
hostname is the SNI server name of the ClientHello, or else the fallback
host from the CONNECT target; with neither the function returns None and
the handshake fails. The random 128-bit serial draw is fallible and is
passed as an Option (none aborts the mint). The minted leaf has CN equal
to the hostname, issuer equal to the root subject, critical serverAuth
EKU, a critical SAN URI of the hostname, its public key set from the root
private key, and is signed with the root private key using SHA-512; the
returned chain is the leaf plus the root DER, keyed by the root RSA key. -/
def CertResolver.resolve (store : RootIdentity) (fallback_host : Option String)
    (sni : Option String) (serial : Option Nat) : Option CertifiedKey :=
  match (match sni with
         | some h => some h
         | none => fallback_host) with
  | none => none
  | some hostname =>
    match serial with
    | none => none
    | some s =>
      some
        { leaf :=
            { version := 2
              serial := s
              subject := { entries := [("CN", hostname)] }
              issuer := store.subject
              ekuCriticalServerAuth := true
              sanCritical := true
              sanUri := hostname
              pubkeySetFrom := store.privkey
              signedWith := store.privkey
              signDigest := Digest.sha512 }
          chainRootDer := store.rootDer
          signingKey := store.privkey }

/-! Helper lemmas. -/

/-- Folding header pairs onto an accumulator appends the list. -/
theorem foldl_header_append (hs : List (String × String))
    (acc : List (String × String)) :
    hs.foldl (fun a nv => a ++ [nv]) acc = acc ++ hs := by
  induction hs generalizing acc with
  | nil => simp
  | cons h t ih => simp [List.foldl, ih]

/-- Rebuilding the header map through the hyper builder preserves it
exactly, duplicate-name order included. -/
theorem buildHeaders_eq (hs : List (String × String)) : buildHeaders hs = hs := by
  simpa [buildHeaders] using foldl_header_append hs []

@[simp]
theorem runPolls_zero (b : InnerStreamBody) : runPolls 0 b = ([], []) := rfl

@[simp]
theorem runPolls_succ_nil (n i rid : Nat) (fork : StreamFork) :
    runPolls (n + 1) ⟨[], i, rid, fork⟩ = ([StreamFork.close fork i rid], []) := rfl

@[simp]
theorem runPolls_succ_ok (n i rid : Nat) (fork : StreamFork) (c : Bytes)
    (rest : List (Except String Bytes)) :
    runPolls (n + 1) ⟨Except.ok c :: rest, i, rid, fork⟩ =
      (StreamFork.send_event fork i rid c ::
          (runPolls n ⟨rest, i, (rid + 1) % U32, fork⟩).1,
        Except.ok c :: (runPolls n ⟨rest, i, (rid + 1) % U32, fork⟩).2) := rfl

@[simp]
theorem runPolls_succ_err (n i rid : Nat) (fork : StreamFork) (e : String)
    (rest : List (Except String Bytes)) :
    runPolls (n + 1) ⟨Except.error e :: rest, i, rid, fork⟩ =
      ((runPolls n ⟨rest, i, rid, fork⟩).1,
        Except.error e :: (runPolls n ⟨rest, i, rid, fork⟩).2) := rfl

/-! Claim C1. -/

/-- C1. For every proxied request, the envelope emits a RequestHead event
carrying the original head and a single-shot callback; if the callback
resolves with a RequestHead value, the request forwarded upstream uses
that replacement head; if the callback resolves with any other event kind,
or the callback sender is dropped, the forwarded request uses the original
head; the same holds for ResponseHead on the response side. -/
theorem head_edit_roundtrip (reqHead : RequestHead) (respHead : ResponseHead)
    (i : Nat) (completion : Option ProxyState) :
    (Request.from_request reqHead i completion).1 =
        { id := i, event := ProxyState.RequestHead reqHead, callback := true }
    ∧ (Response.from_response respHead i completion).1 =
        { id := i, event := ProxyState.ResponseHead respHead, callback := true }
    ∧ (∀ h, completion = some (ProxyState.RequestHead h) →
        ((Request.from_request reqHead i completion).2).intoHyper =
          { method := h.method, uri := h.uri, version := h.version,
            headers := h.headers })
    ∧ (∀ h, completion = some (ProxyState.ResponseHead h) →
        (Response.from_response respHead i completion).2.head = h)
    ∧ (completion = none →
        ((Request.from_request reqHead i completion).2).intoHyper =
            { method := reqHead.method, uri := reqHead.uri,
              version := reqHead.version, headers := reqHead.headers }
          ∧ (Response.from_response respHead i completion).2.head = respHead)
    ∧ (∀ s, completion = some s → (∀ h, s ≠ ProxyState.RequestHead h) →
        ((Request.from_request reqHead i completion).2).intoHyper =
          { method := reqHead.method, uri := reqHead.uri,
            version := reqHead.version, headers := reqHead.headers })
    ∧ (∀ s, completion = some s → (∀ h, s ≠ ProxyState.ResponseHead h) →
        (Response.from_response respHead i completion).2.head = respHead) := by
  refine ⟨rfl, rfl, ?_, ?_, ?_, ?_, ?_⟩
  · intro h hc
    subst hc
    simp [Request.from_request, Request.intoHyper, chooseReqHead, buildHeaders_eq]
  · intro h hc
    subst hc
    simp [Response.from_response, chooseRespHead]
  · intro hc
    subst hc
    constructor
    · simp [Request.from_request, Request.intoHyper, chooseReqHead, buildHeaders_eq]
    · simp [Response.from_response, chooseRespHead]
  · intro s hc hne
    subst hc
    cases s with
    | RequestHead h => exact absurd rfl (hne h)
    | _ =>
      simp [Request.from_request, Request.intoHyper, chooseReqHead, buildHeaders_eq]
  · intro s hc hne
    subst hc
    cases s with
    | ResponseHead h => exact absurd rfl (hne h)
    | _ =>
      simp [Response.from_response, chooseRespHead]

/-- Concrete instances used in witnesses. -/
def wReqHead : RequestHead :=
  { method := "GET"
    uri := { scheme := some "https", authority := some "example.com", path := "/" }
    version := 11
    headers := [("host", "example.com")] }

/-- Replacement head with a different URI, for the edit witness. -/
def wReqHead2 : RequestHead :=
  { method := "GET"
    uri := { scheme := some "https", authority := some "edited.example", path := "/x" }
    version := 11
    headers := [("host", "edited.example")] }

/-- Concrete response head used in witnesses. -/
def wRespHead : ResponseHead :=
  { status := 200, version := 11, headers := [("server", "nginx")] }

/-- Witness for C1: a callback reply of matching kind at a concrete input
really replaces the head of the forwarded request. -/
theorem head_edit_roundtrip_witness :
    (Request.from_request wReqHead 5 (some (ProxyState.RequestHead wReqHead2))).1 =
        { id := 5, event := ProxyState.RequestHead wReqHead, callback := true }
    ∧ ((Request.from_request wReqHead 5
          (some (ProxyState.RequestHead wReqHead2))).2).intoHyper =
        { method := wReqHead2.method, uri := wReqHead2.uri,
          version := wReqHead2.version, headers := wReqHead2.headers } :=
  ⟨(head_edit_roundtrip wReqHead wRespHead 5
      (some (ProxyState.RequestHead wReqHead2))).1,
    (head_edit_roundtrip wReqHead wRespHead 5
      (some (ProxyState.RequestHead wReqHead2))).2.2.1 wReqHead2 rfl⟩

/-! Claim C9. -/

/-- C9. For every id, the concatenation of the RequestChunk payloads
emitted for that id, in emission order, equals the request body bytes the
upstream received; similarly the concatenation of the ResponseChunk
payloads equals the response body the client received. Stated over any
number of consumer polls of the streaming body, so it covers complete,
truncated and error-terminated transfers of both directions. -/
theorem chunk_concat_matches_body (n : Nat) (b : InnerStreamBody) :
    chunkPayloads (runPolls n b).1 = receivedBytes (runPolls n b).2 := by
  induction n generalizing b with
  | zero => simp [chunkPayloads, receivedBytes]
  | succ n ih =>
    obtain ⟨inner, i, rid, fork⟩ := b
    cases inner with
    | nil =>
      cases fork <;>
        simp [chunkPayloads, receivedBytes, StreamFork.close]
    | cons item rest =>
      cases item with
      | ok c =>
        cases fork <;>
          simp [chunkPayloads, receivedBytes, StreamFork.send_event, ih]
      | error e =>
        simp [chunkPayloads, receivedBytes, ih]

/-! Claim C2. -/

/-- Concrete streaming body dropped mid-stream in the C2 counterexample. -/
def c2Body : InnerStreamBody :=
  { inner := [Except.ok [1], Except.ok [2]]
    id := 7
    request_id := 0
    stream := StreamFork.RequestStream }

/-- Counterexample to C2 as stated: the claim says that when the body
wrapper is dropped before its underlying stream ends, the Done event is
still emitted via the destructor path. Here the wrapper of request id 7 is
polled once (its stream holds two chunks, so end-of-stream is not reached)
and then dropped; the full trace, drop included, contains zero Done
events, because body.rs defines no Drop implementation. -/
theorem done_on_drop_counterexample :
    countDone ((runPolls 1 c2Body).1 ++ c2Body.dropEvents) = 0
    ∧ c2Body.inner.length = 2 := by decide

/-- C2 amended: a Done event is emitted exactly once, when and only when
the consumer polls the body past end-of-stream; dropping the wrapper
earlier adds no event, because the body has no destructor emission path. -/
theorem done_emission_amended (n : Nat) (b : InnerStreamBody) :
    countDone ((runPolls n b).1 ++ b.dropEvents) =
      if b.inner.length < n then 1 else 0 := by
  induction n generalizing b with
  | zero => simp [countDone, InnerStreamBody.dropEvents]
  | succ n ih =>
    obtain ⟨inner, i, rid, fork⟩ := b
    cases inner with
    | nil =>
      cases fork <;>
        simp [countDone, InnerStreamBody.dropEvents, StreamFork.close,
          ChunkState.isDone]
    | cons item rest =>
      cases item with
      | ok c =>
        have h := ih ⟨rest, i, (rid + 1) % U32, fork⟩
        cases fork <;>
          simpa [countDone, InnerStreamBody.dropEvents, StreamFork.send_event,
            ChunkState.isDone, Nat.succ_lt_succ_iff] using h
      | error e =>
        have h := ih ⟨rest, i, rid, fork⟩
        simpa [countDone, InnerStreamBody.dropEvents,
          Nat.succ_lt_succ_iff] using h

/-! Claim C3. -/

/-- Concrete streaming body for the C3 counterexample. -/
def c3Body : InnerStreamBody :=
  { inner := [Except.ok [42]]
    id := 9
    request_id := 0
    stream := StreamFork.RequestStream }

/-- Counterexample to C3 as stated: the claim says every chunk is emitted
as a Chunk event carrying the bytes together with a callback. Pulling the
single chunk of this body emits exactly one chunk event, and that event
carries no callback sender (body.rs builds its events without one), so no
reply could ever be awaited and the body yields the original bytes. -/
theorem chunk_callback_counterexample :
    (runPolls 1 c3Body).1 =
      [{ id := 9, event := ChunkState.RequestChunk 0 [42], callback := false }]
    ∧ (runPolls 1 c3Body).2 = [Except.ok [42]] := by decide

/-- C3 amended: every chunk pulled through a streaming body is emitted as a
Chunk event carrying the chunk bytes and no callback, and the body always
yields the original chunks downstream unchanged: the items the consumer
receives are exactly the items of the wrapped stream, in order (there is no
edit path in the body). -/
theorem chunk_passthrough_amended (n : Nat) (b : InnerStreamBody) :
    countCallbacks (runPolls n b).1 = 0
    ∧ (runPolls n b).2 = b.inner.take n := by
  induction n generalizing b with
  | zero => simp [countCallbacks]
  | succ n ih =>
    obtain ⟨inner, i, rid, fork⟩ := b
    cases inner with
    | nil =>
      cases fork <;> simp [countCallbacks, StreamFork.close]
    | cons item rest =>
      cases item with
      | ok c =>
        have h := ih ⟨rest, i, (rid + 1) % U32, fork⟩
        cases fork <;>
          simp [countCallbacks, StreamFork.send_event, h.1, h.2]
      | error e =>
        have h := ih ⟨rest, i, rid, fork⟩
        simp [countCallbacks, h.1, h.2]

/-! Claim C4. -/

/-- Concrete shuttle state for the C4 counterexample: the client side
offers one chunk and then an I/O error, the upstream side offers one
chunk. -/
def c4State : ShuttleState :=
  { reqReads := [some [1], none]
    respReads := [some [2]]
    chunk_id := 0 }

/-- Counterexample to C4 as stated: the claim says UpgradeOpen is emitted
before any UpgradeTx or UpgradeRx and that UpgradeClose is emitted exactly
once when a side errors. Running the shuttle for id 3 on a schedule that
reads the client, then the upstream, then hits the client error, the trace
contains two UpgradeTx or UpgradeRx events but zero UpgradeOpen and zero
UpgradeClose events: the shuttle code never sends either. -/
theorem upgrade_events_counterexample :
    countEvents ProxyState.isUpgradeTxRx
        (shuttleRun 3 [true, false, true] c4State) = 2
    ∧ countEvents ProxyState.isUpgradeOpen
        (shuttleRun 3 [true, false, true] c4State) = 0
    ∧ countEvents ProxyState.isUpgradeClose
        (shuttleRun 3 [true, false, true] c4State) = 0 := by decide

/-- C4 amended: the duplex shuttle emits only UpgradeTx and UpgradeRx
events; it never emits UpgradeOpen or UpgradeClose for any id, schedule or
state, and either side reading 0 bytes (an exhausted side) or an I/O error
terminates the loop with no further events. -/
theorem shuttle_txrx_only (i : Nat) (sched : List Bool) (st : ShuttleState) :
    countEvents ProxyState.isUpgradeOpen (shuttleRun i sched st) = 0
    ∧ countEvents ProxyState.isUpgradeClose (shuttleRun i sched st) = 0
    ∧ countEvents ProxyState.isUpgradeTxRx (shuttleRun i sched st) =
        (shuttleRun i sched st).length
    ∧ (∀ s2 rr c, shuttleRun i (true :: s2) ⟨[], rr, c⟩ = [])
    ∧ (∀ s2 rr c more, shuttleRun i (true :: s2) ⟨none :: more, rr, c⟩ = [])
    ∧ (∀ s2 rq c, shuttleRun i (false :: s2) ⟨rq, [], c⟩ = [])
    ∧ (∀ s2 rq c more, shuttleRun i (false :: s2) ⟨rq, none :: more, c⟩ = []) := by
  refine ⟨?_, ?_, ?_, fun _ _ _ => rfl, fun _ _ _ _ => rfl,
    fun _ _ _ => rfl, fun _ _ _ _ => rfl⟩ <;>
  · induction sched generalizing st with
    | nil => simp [shuttleRun, countEvents]
    | cons pick rest ih =>
      obtain ⟨rq, rs, c⟩ := st
      cases pick
      · cases rs with
        | nil => simp [shuttleRun, countEvents]
        | cons o more =>
          cases o with
          | none => simp [shuttleRun, countEvents]
          | some bytes =>
            simp [shuttleRun, countEvents, ProxyState.isUpgradeOpen,
              ProxyState.isUpgradeClose, ProxyState.isUpgradeTxRx, ih] <;>
              omega
      · cases rq with
        | nil => simp [shuttleRun, countEvents]
        | cons o more =>
          cases o with
          | none => simp [shuttleRun, countEvents]
          | some bytes =>
            simp [shuttleRun, countEvents, ProxyState.isUpgradeOpen,
              ProxyState.isUpgradeClose, ProxyState.isUpgradeTxRx, ih] <;>
              omega

/-! Claim C5. -/

/-- Closed form of the id counter: after n admissions from start s the
counter holds (s + n) modulo U32. -/
theorem counterAfter_closed (s n : Nat) : counterAfter s n = (s + n) % U32 := by
  induction n with
  | zero => simp [counterAfter]
  | succ n ih =>
    show (counterAfter s n + 1) % U32 = (s + (n + 1)) % U32
    rw [ih]
    simp [U32]
    omega

/-- Counterexample to C5 as stated: the claim says ids are strictly
increasing across all requests. The counter is a u32 bumped with
fetch_add(1), so it wraps: starting from the default id 1, admitted
request number 4294967294 receives id 4294967295 and the next request
receives id 0 — not greater, and equal to the id 0 the claim reserves for
non-request events. -/
theorem id_wraparound_counterexample :
    idOfRequest 1 (U32 - 2) = U32 - 1
    ∧ idOfRequest 1 (U32 - 1) = 0
    ∧ ¬ idOfRequest 1 (U32 - 2) < idOfRequest 1 (U32 - 1) := by
  have h1 := counterAfter_closed 1 (U32 - 2)
  have h2 := counterAfter_closed 1 (U32 - 1)
  simp [U32] at h1 h2
  refine ⟨?_, ?_, ?_⟩ <;>
    simp [idOfRequest, h1, h2, U32]

/-- C5 amended: ids are allocated from a single process-wide counter whose
default starting value is 1 (the source reserves id 0 for events not tied
to a request), and for any two admitted requests R1 before R2 the id of R2
is strictly greater than the id of R1 provided the u32 counter has not
wrapped, i.e. as long as starting id plus admission index stays below
2 to the 32. -/
theorem id_monotonic_amended :
    ProxyConfig.default.starting_id = 1
    ∧ ∀ s n1 n2 : Nat, n1 < n2 → s + n2 < U32 →
        idOfRequest s n1 < idOfRequest s n2 := by
  refine ⟨rfl, ?_⟩
  intro s n1 n2 hlt hwrap
  have h1 := counterAfter_closed s n1
  have h2 := counterAfter_closed s n2
  simp [idOfRequest, h1, h2]
  have e1 : (s + n1) % U32 = s + n1 := Nat.mod_eq_of_lt (by omega)
  have e2 : (s + n2) % U32 = s + n2 := Nat.mod_eq_of_lt (by omega)
  omega

/-- Witness for C5 amended at concrete inputs: with the default starting
id, the first admitted request gets id 1 and the second gets id 2. -/
theorem id_monotonic_amended_witness :
    ProxyConfig.default.starting_id = 1
    ∧ idOfRequest 1 0 < idOfRequest 1 1 :=
  ⟨id_monotonic_amended.1,
    id_monotonic_amended.2 1 0 1 (by decide) (by decide)⟩

/-! Claim C8. -/

/-- C8. If dispatching a proxied request with id i to the upstream client
fails, the handler emits an Error event carrying id i and the failure
message, and returns to the client a response with status 500 and body
Internal Proxy Error. The id carried by the Error event is the same id the
RequestHead event of that request carries. -/
theorem upstream_error_emits_500 (fallback : Option String) (counter : Nat)
    (req : HyperRequest) (reqReply respReply : Option ProxyState)
    (upstream : HyperRequest → Except String HyperResponse)
    (host : String) (e : String)
    (hm : ¬ req.method = "CONNECT")
    (hh : resolveHost req fallback = some host)
    (he : upstream (forwardedRequest host (counter % U32) req reqReply) =
      Except.error e) :
    (ProxyCore.call fallback counter req reqReply respReply upstream).events =
        [(Request.from_request (admittedHead host req) (counter % U32) reqReply).1,
          { id := counter % U32, event := ProxyState.Error e, callback := false }]
    ∧ (ProxyCore.call fallback counter req reqReply respReply upstream).result =
        Except.ok
          { status := 500, version := 11, headers := [],
            body := "Internal Proxy Error" } := by
  simp only [forwardedRequest] at he
  simp [ProxyCore.call, hm, hh, he]

/-- Concrete request for the C8 witness. -/
def w8Req : HyperRequest :=
  { method := "GET"
    uri := { scheme := some "http", authority := some "example.com", path := "/" }
    version := 11
    headers := [] }

/-- Concrete always-failing upstream client for the C8 witness. -/
def w8Upstream : HyperRequest → Except String HyperResponse :=
  fun _ => Except.error "connection refused"

/-- Witness for C8 at concrete inputs: a refused upstream connection makes
the handler emit the RequestHead event followed by the Error event for the
same id, and answer 500 Internal Proxy Error. -/
theorem upstream_error_emits_500_witness :
    (ProxyCore.call none 1 w8Req none none w8Upstream).events =
        [(Request.from_request (admittedHead "example.com" w8Req) (1 % U32) none).1,
          { id := 1 % U32, event := ProxyState.Error "connection refused",
            callback := false }]
    ∧ (ProxyCore.call none 1 w8Req none none w8Upstream).result =
        Except.ok
          { status := 500, version := 11, headers := [],
            body := "Internal Proxy Error" } :=
  upstream_error_emits_500 none 1 w8Req none none w8Upstream
    "example.com" "connection refused" (by decide) rfl rfl

/-! Claim C6. -/

/-- C6. For every TLS termination, resolve mints a leaf certificate whose
subject CN equals the SNI hostname from the ClientHello, or the CONNECT
fallback host when SNI is absent; the leaf issuer is the root subject, it
is signed with the root key using SHA-512, and it carries a SAN URI equal
to that hostname; if neither SNI nor a fallback host exists, resolve
returns no certificate (so the handshake fails). -/
theorem resolve_leaf_identity (store : RootIdentity)
    (fallback sni : Option String) (serial : Nat) :
    (∀ h, sni = some h →
      ∃ ck, CertResolver.resolve store fallback sni (some serial) = some ck
        ∧ ck.leaf.subject.entries = [("CN", h)]
        ∧ ck.leaf.issuer = store.subject
        ∧ ck.leaf.signedWith = store.privkey
        ∧ ck.leaf.signDigest = Digest.sha512
        ∧ ck.leaf.sanUri = h)
    ∧ (sni = none → ∀ f, fallback = some f →
      ∃ ck, CertResolver.resolve store fallback sni (some serial) = some ck
        ∧ ck.leaf.subject.entries = [("CN", f)]
        ∧ ck.leaf.issuer = store.subject
        ∧ ck.leaf.signedWith = store.privkey
        ∧ ck.leaf.signDigest = Digest.sha512
        ∧ ck.leaf.sanUri = f)
    ∧ (sni = none → fallback = none →
      ∀ s : Option Nat, CertResolver.resolve store fallback sni s = none) := by
  refine ⟨?_, ?_, ?_⟩
  · intro h hc
    subst hc
    exact ⟨_, rfl, rfl, rfl, rfl, rfl, rfl⟩
  · intro hs f hf
    subst hs
    subst hf
    exact ⟨_, rfl, rfl, rfl, rfl, rfl, rfl⟩
  · intro hs hf s
    subst hs
    subst hf
    rfl

/-- Concrete root identity for the certificate witnesses. -/
def wRoot : RootIdentity :=
  { privkey := { raw := [3, 1, 4] }
    subject := { entries := [("CN", "localhost"), ("O", "proxy")] }
    rootDer := [48, 130] }

/-- Concrete certified key that resolve mints for SNI example.com from the
witness root. -/
def w6Key : CertifiedKey :=
  { leaf :=
      { version := 2
        serial := 77
        subject := { entries := [("CN", "example.com")] }
        issuer := wRoot.subject
        ekuCriticalServerAuth := true
        sanCritical := true
        sanUri := "example.com"
        pubkeySetFrom := wRoot.privkey
        signedWith := wRoot.privkey
        signDigest := Digest.sha512 }
    chainRootDer := wRoot.rootDer
    signingKey := wRoot.privkey }

/-- Witness for C6 at concrete inputs: with SNI example.com present the
minted leaf has CN example.com, root issuer, root signing key, SHA-512 and
a SAN URI of example.com. -/
theorem resolve_leaf_identity_witness :
    CertResolver.resolve wRoot (some "fallback.example") (some "example.com")
        (some 77) = some w6Key
    ∧ w6Key.leaf.subject.entries = [("CN", "example.com")]
    ∧ w6Key.leaf.issuer = wRoot.subject
    ∧ w6Key.leaf.signedWith = wRoot.privkey
    ∧ w6Key.leaf.signDigest = Digest.sha512
    ∧ w6Key.leaf.sanUri = "example.com" := by
  obtain ⟨ck, hck, h1, h2, h3, h4, h5⟩ :=
    (resolve_leaf_identity wRoot (some "fallback.example") (some "example.com")
      77).1 "example.com" rfl
  have h0 : CertResolver.resolve wRoot (some "fallback.example")
      (some "example.com") (some 77) = some w6Key := rfl
  rw [hck] at h0
  have hw : ck = w6Key := Option.some_inj.mp h0
  subst hw
  exact ⟨hck, h1, h2, h3, h4, h5⟩

/-! Claim C7. -/

/-- Concrete generated pair for the C7 theorems. -/
def w7Pair : CertStorePair :=
  { privkey := { raw := [1] }, pubkey := { raw := [2] } }

/-- PEM certificate parser that rejects every input (models a corrupt
certificate file). -/
def w7PemBad : List Nat → Option LoadedCert := fun _ => none

/-- PEM certificate parser that accepts every input. -/
def w7PemOk : List Nat → Option LoadedCert := fun b => some { raw := b }

/-- DER private key parser that accepts every input. -/
def w7DerOk : List Nat → Option LoadedKey := fun b => some { raw := b }

/-- Counterexample to C7 as stated: the claim says that when either file is
corrupt, load_or_create generates a fresh root, and that only failure of
the regeneration is fatal. Here both files open (contents present) but the
certificate fails to PEM-parse; try_load calls unwrap on the parse, so the
process panics instead of regenerating, even though generation would have
succeeded. -/
theorem corrupt_file_panics_counterexample :
    CertStore.try_load_or_create (some [0]) (some [0])
        w7PemBad w7DerOk (some w7Pair) = StoreOutcome.panicked
    ∧ StoreOutcome.panicked ≠ StoreOutcome.created w7Pair := by
  exact ⟨rfl, by decide⟩

/-- C7 amended: load_or_create returns the stored pair when both files can
be opened and parse (PEM certificate, DER private key); when either file
is missing (cannot be opened) it generates a fresh root, writes it, and
returns the new pair, and only failure of that regeneration is fatal; but
when a file opens and fails to parse, the load panics (fatal) without
attempting regeneration. -/
theorem load_or_create_amended (certFile keyFile : Option (List Nat))
    (pemParse : List Nat → Option LoadedCert)
    (derParse : List Nat → Option LoadedKey)
    (gen : Option CertStorePair) :
    (∀ cb kb c k, certFile = some cb → keyFile = some kb →
      pemParse cb = some c → derParse kb = some k →
      CertStore.try_load_or_create certFile keyFile pemParse derParse gen =
        StoreOutcome.loaded { privkey := k, pubkey := c })
    ∧ (certFile = none ∨ keyFile = none →
      CertStore.try_load_or_create certFile keyFile pemParse derParse gen =
        match gen with
        | some pair => StoreOutcome.created pair
        | none => StoreOutcome.createFailed)
    ∧ (∀ cb kb, certFile = some cb → keyFile = some kb → pemParse cb = none →
      CertStore.try_load_or_create certFile keyFile pemParse derParse gen =
        StoreOutcome.panicked)
    ∧ (∀ cb kb c, certFile = some cb → keyFile = some kb →
      pemParse cb = some c → derParse kb = none →
      CertStore.try_load_or_create certFile keyFile pemParse derParse gen =
        StoreOutcome.panicked) := by
  refine ⟨?_, ?_, ?_, ?_⟩
  · intro cb kb c k hc hk hp hd
    subst hc
    subst hk
    simp [CertStore.try_load_or_create, CertStore.try_load, hp, hd]
  · intro hmiss
    rcases hmiss with hc | hk
    · subst hc
      simp [CertStore.try_load_or_create, CertStore.try_load]
    · subst hk
      cases certFile <;>
        simp [CertStore.try_load_or_create, CertStore.try_load]
  · intro cb kb hc hk hp
    subst hc
    subst hk
    simp [CertStore.try_load_or_create, CertStore.try_load, hp]
  · intro cb kb c hc hk hp hd
    subst hc
    subst hk
    simp [CertStore.try_load_or_create, CertStore.try_load, hp, hd]

/-- Witness for C7 amended at concrete inputs: with both files present and
parsing, the stored pair is returned; with the certificate file missing,
the fresh pair is created. -/
theorem load_or_create_amended_witness :
    CertStore.try_load_or_create (some [9]) (some [8]) w7PemOk w7DerOk none =
      StoreOutcome.loaded { privkey := { raw := [8] }, pubkey := { raw := [9] } }
    ∧ CertStore.try_load_or_create none (some [8]) w7PemOk w7DerOk
        (some w7Pair) =
      StoreOutcome.created w7Pair :=
  ⟨(load_or_create_amended (some [9]) (some [8]) w7PemOk w7DerOk none).1
      [9] [8] { raw := [9] } { raw := [8] } rfl rfl rfl rfl,
    (load_or_create_amended none (some [8]) w7PemOk w7DerOk
      (some w7Pair)).2.1 (Or.inl rfl)⟩

/-! Claim C10. -/

/-- C10. Every leaf certificate minted by resolve reuses the root keypair:
the leaf public key is set from the root private key and the returned
CertifiedKey signs with the root key, so no per-leaf keypair is generated
and all minted leaves, across all hostnames and connections, share the
root private key. -/
theorem leaf_reuses_root_key :
    (∀ (store : RootIdentity) (fb sni : Option String) (serial : Option Nat)
      (ck : CertifiedKey),
      CertResolver.resolve store fb sni serial = some ck →
      ck.leaf.pubkeySetFrom = store.privkey
        ∧ ck.leaf.signedWith = store.privkey
        ∧ ck.signingKey = store.privkey)
    ∧ (∀ (store : RootIdentity) (fb1 sni1 : Option String) (s1 : Option Nat)
      (fb2 sni2 : Option String) (s2 : Option Nat) (ck1 ck2 : CertifiedKey),
      CertResolver.resolve store fb1 sni1 s1 = some ck1 →
      CertResolver.resolve store fb2 sni2 s2 = some ck2 →
      ck1.signingKey = ck2.signingKey) := by
  have key : ∀ (store : RootIdentity) (fb sni : Option String)
      (serial : Option Nat) (ck : CertifiedKey),
      CertResolver.resolve store fb sni serial = some ck →
      ck.leaf.pubkeySetFrom = store.privkey
        ∧ ck.leaf.signedWith = store.privkey
        ∧ ck.signingKey = store.privkey := by
    intro store fb sni serial ck h
    unfold CertResolver.resolve at h
    rcases hh : (match sni with
                 | some h => some h
                 | none => fb) with _ | hostname <;> rw [hh] at h
    · exact absurd h (by simp)
    · rcases serial with _ | s
      · exact absurd h (by simp)
      · simp only [Option.some.injEq] at h
        subst h
        exact ⟨rfl, rfl, rfl⟩
  refine ⟨key, ?_⟩
  intro store fb1 sni1 s1 fb2 sni2 s2 ck1 ck2 h1 h2
  rw [(key store fb1 sni1 s1 ck1 h1).2.2, (key store fb2 sni2 s2 ck2 h2).2.2]

/-- Concrete certified key minted for the C10 witness. -/
def w10Key : CertifiedKey :=
  { leaf :=
      { version := 2
        serial := 9
        subject := { entries := [("CN", "a.example")] }
        issuer := wRoot.subject
        ekuCriticalServerAuth := true
        sanCritical := true
        sanUri := "a.example"
        pubkeySetFrom := wRoot.privkey
        signedWith := wRoot.privkey
        signDigest := Digest.sha512 }
    chainRootDer := wRoot.rootDer
    signingKey := wRoot.privkey }

/-- Witness for C10 at concrete inputs: a leaf minted for a.example carries
the public part of the root key and signs with the root key. -/
theorem leaf_reuses_root_key_witness :
    w10Key.leaf.pubkeySetFrom = wRoot.privkey
    ∧ w10Key.leaf.signedWith = wRoot.privkey
    ∧ w10Key.signingKey = wRoot.privkey :=
  leaf_reuses_root_key.1 wRoot none (some "a.example") (some 9) w10Key rfl

end Proxy
